import Mathlib

/-!
# Verification of `nerfstudio/model_components/ray_generators.py`

A shallow embedding of the `RayGenerator` adapter module. The module is a
thin layer over two external collaborators (a camera collection and a pose
optimizer): it caches per-pixel image coordinates at construction, and its
`forward` method splits a batch of `(camera, row, col)` index triples,
gathers image-plane coordinates from the cache, queries the pose optimizer,
and delegates to the camera collection's `generate_rays`.

Modelling conventions:
* Tensor scalar coordinates are rationals (`ℚ`); index tensors are integer
  lists.  An image-coordinate table (`image_coords`, shape rows×cols×2) is a
  `CoordTable`: its dimensions plus an entry function.
* PyTorch advanced indexing `t[y, x]` with integer index tensors accepts
  indices in `[-n, n)` per axis, a negative index `i` addressing position
  `n + i`; anything outside that range raises `IndexError`.  This is
  `tensorIndex` / `CoordTable.gather1` below; a failed lookup is `none`.
* The collaborators are opaque function fields.  A fallible call returns
  `Option`; `none` is a raised exception, which the adapter never catches.
* `generate_rays` returns either a bare ray bundle or a (bundle, coords)
  pair, embedded as a sum type `GenResult`.
-/

set_option autoImplicit false

namespace RayGenerators

/-- An image-plane coordinate pair, one entry of the coordinate table. -/
abbrev Coord : Type := ℚ × ℚ

/-- An input index triple `(camera_id, row, col)`, one row of `ray_indices`. -/
abbrev Tri : Type := ℤ × ℤ × ℤ

/-- A per-camera correction transform produced by the pose optimizer.  The
adapter never inspects it, so a single rational stands in for the transform
payload. -/
abbrev Pose : Type := ℚ

/-- A single generated ray.  The adapter never inspects rays; the payload is
an (origin, direction) pair of 3-vectors. -/
structure Ray where
  origin : ℚ × ℚ × ℚ
  direction : ℚ × ℚ × ℚ
  deriving DecidableEq, Repr

/-- A ray bundle: a batch of rays aligned with the input index batch. -/
abbrev RayBundle : Type := List Ray

/-- Result of `Cameras.generate_rays`: a bare ray bundle (`resample=False`)
or a pair of the bundle with resampled coordinates (`resample=True`). -/
abbrev GenResult : Type := RayBundle ⊕ (RayBundle × List Coord)

/-- The image-coordinate table of shape `rows × cols × 2`: `entry r c` is the
coordinate pair stored at pixel `(r, c)` (meaningful for `r < rows`,
`c < cols`). -/
structure CoordTable where
  rows : ℕ
  cols : ℕ
  entry : ℕ → ℕ → Coord

/-- PyTorch index normalisation along one axis of size `n`: an index in
`[0, n)` is used as is, an index in `[-n, 0)` addresses `n + i`, anything
else raises `IndexError` (`none`). -/
def tensorIndex (n : ℕ) (i : ℤ) : Option ℕ :=
  if 0 ≤ i ∧ i < (n : ℤ) then some i.toNat
  else if -(n : ℤ) ≤ i ∧ i < 0 then some (i + (n : ℤ)).toNat
  else none

/-- One element of the gather `self.image_coords[y, x]`: the two index
tensors are normalised per axis, then the table entry is read. -/
def CoordTable.gather1 (t : CoordTable) (y x : ℤ) : Option Coord :=
  match tensorIndex t.rows y, tensorIndex t.cols x with
  | some r, some c => some (t.entry r c)
  | _, _ => none

/-- The batched gather `self.image_coords[y, x]` (line 56): elementwise
`gather1` over the two parallel index lists; any failing element raises. -/
def gatherCoords (t : CoordTable) : List ℤ → List ℤ → Option (List Coord)
  | [], [] => some []
  | y :: ys, x :: xs =>
    match t.gather1 y x, gatherCoords t ys xs with
    | some cd, some rest => some (cd :: rest)
    | _, _ => none
  | _, _ => none

/-- The pose optimizer collaborator: a callable from a batch of camera
indices to a batch of correction transforms; `none` is a raised error. -/
abbrev PoseOptimizer : Type := List ℤ → Option (List Pose)

/-- The camera collection collaborator (external to this file's module):
`get_image_coords` precomputes the coordinate table for a sub-pixel offset,
and `generate_rays` produces rays from camera indices, image coordinates and
correction transforms; `none` is a raised error. -/
structure Cameras where
  get_image_coords : ℚ → CoordTable
  generate_rays : List ℤ → List Coord → List Pose → Bool → Option GenResult

/-- Column 0 of `ray_indices`: the camera indices `c` (line 53). -/
def camsOf (ray_indices : List Tri) : List ℤ :=
  ray_indices.map (fun tri => tri.1)

/-- Column 1 of `ray_indices`: the row indices `y` (line 54). -/
def rowsOf (ray_indices : List Tri) : List ℤ :=
  ray_indices.map (fun tri => tri.2.1)

/-- Column 2 of `ray_indices`: the col indices `x` (line 55). -/
def colsOf (ray_indices : List Tri) : List ℤ :=
  ray_indices.map (fun tri => tri.2.2)

/-- The `RayGenerator` module state: the two collaborator references and the
two attributes set by `__init__` (`pixel_offset` and the registered
`image_coords` buffer). -/
structure RayGenerator where
  cameras : Cameras
  pixel_offset : ℚ
  pose_optimizer : PoseOptimizer
  image_coords : CoordTable

namespace RayGenerator

/-- `RayGenerator.__init__` (lines 38-43): store the collaborators and the
offset, and register `image_coords := cameras.get_image_coords(pixel_offset)`
as a (non-persistent) buffer. -/
def init (cameras : Cameras) (pose_optimizer : PoseOptimizer) (pixel_offset : ℚ) :
    RayGenerator :=
  { cameras := cameras
    pixel_offset := pixel_offset
    pose_optimizer := pose_optimizer
    image_coords := cameras.get_image_coords pixel_offset }

/-- `RayGenerator(cameras, pose_optimizer)` with `pixel_offset` left at its
declared default `0.5`. -/
def initDefault (cameras : Cameras) (pose_optimizer : PoseOptimizer) : RayGenerator :=
  init cameras pose_optimizer (1 / 2)

/-- The tail of `forward` (lines 66-70): if `resample` is set, destructure
the returned pair (a non-pair result makes the destructuring raise) and
subtract `pixel_offset` from both components of each resampled coordinate,
returning the two-component tuple; otherwise return the `generate_rays`
result unchanged. -/
def postprocess (off : ℚ) (resample : Bool) (ray_bundle_and_coords : GenResult) :
    Option GenResult :=
  if resample then
    match ray_bundle_and_coords with
    | Sum.inr (ray_bundle, new_coords) =>
      some (Sum.inr (ray_bundle, new_coords.map (fun p => (p.1 - off, p.2 - off))))
    | Sum.inl _ => none
  else some ray_bundle_and_coords

/-- The part of `forward` after the coordinate gather (lines 58-70): query
the pose optimizer, delegate to `generate_rays`, then `postprocess`.  An
exception anywhere (`none`) aborts the call, which is exactly `Option.bind`
sequencing. -/
def forwardWithCoords (rg : RayGenerator) (c : List ℤ) (coords : List Coord)
    (resample : Bool) : Option GenResult :=
  (rg.pose_optimizer c).bind (fun camera_opt_to_camera =>
    (rg.cameras.generate_rays c coords camera_opt_to_camera resample).bind
      (postprocess rg.pixel_offset resample))

/-- `RayGenerator.forward` (lines 45-70): split `ray_indices` into the three
index columns, gather `coords = image_coords[y, x]`, then proceed as
`forwardWithCoords`.  Returns `none` exactly when a step raises. -/
def forward (rg : RayGenerator) (ray_indices : List Tri) (resample : Bool) :
    Option GenResult :=
  (gatherCoords rg.image_coords (rowsOf ray_indices) (colsOf ray_indices)).bind
    (fun coords => rg.forwardWithCoords (camsOf ray_indices) coords resample)

/-- State-passing form of `forward`: the body of `forward` contains no
assignment to any attribute of `self` and no in-place operation on
`ray_indices`, so each step reads the threaded module state and input batch
and the call returns them as they were. -/
def forwardMut (rg : RayGenerator) (ray_indices : List Tri) (resample : Bool) :
    Option GenResult × RayGenerator × List Tri :=
  let s := (rg, ray_indices)
  ((gatherCoords s.1.image_coords (rowsOf s.2) (colsOf s.2)).bind
    (fun coords => s.1.forwardWithCoords (camsOf s.2) coords resample), s)

end RayGenerator

/-- Three-list pointwise zip, used to express per-ray alignment. -/
def zipWith3 {α β γ δ : Type} (f : α → β → γ → δ) : List α → List β → List γ → List δ
  | a :: as, b :: bs, c :: cs => f a b c :: zipWith3 f as bs cs
  | _, _, _ => []

/-- Modelled from the spec: `Cameras.generate_rays` lives in
`nerfstudio/cameras/cameras.py`, which is not part of the sources under
review; per the collaborator contract it returns a ray bundle aligned
one-to-one with the input batch — ray `i` produced from camera index `i`,
coordinate `i` and correction transform `i` — and, when `resample` is set,
additionally a batch of perturbed per-ray coordinates.  `rayFn` and
`perturbFn` stand for the (unspecified) per-ray camera projection math. -/
def specCameras (geom : ℚ → CoordTable) (rayFn : ℤ → Coord → Pose → Ray)
    (perturbFn : ℤ → Coord → Pose → Coord) : Cameras :=
  { get_image_coords := geom
    generate_rays := fun c coords poses resample =>
      some (if resample then
        Sum.inr (zipWith3 rayFn c coords poses, zipWith3 perturbFn c coords poses)
      else Sum.inl (zipWith3 rayFn c coords poses)) }

/-- An index triple is valid for a table when its row and col components are
genuinely in range (non-negative and below the table dimensions). -/
def validTri (t : CoordTable) (tri : Tri) : Prop :=
  0 ≤ tri.2.1 ∧ tri.2.1 < (t.rows : ℤ) ∧ 0 ≤ tri.2.2 ∧ tri.2.2 < (t.cols : ℤ)

instance (t : CoordTable) (tri : Tri) : Decidable (validTri t tri) := by
  unfold validTri; infer_instance

/-- The coordinates the gather is expected to produce on a valid batch: the
cache entry at `(row, col)` for each input triple. -/
def expectedCoords (t : CoordTable) (ray_indices : List Tri) : List Coord :=
  ray_indices.map (fun tri => t.entry tri.2.1.toNat tri.2.2.toNat)

/-- The ray bundle component of a `generate_rays` / `forward` result. -/
def bundleOf : GenResult → RayBundle
  | Sum.inl rb => rb
  | Sum.inr (rb, _) => rb

/-! ## The module import surface (lines 18-23)

The class body of `RayGenerator` is executed at module import time; the
return annotation of `forward` (line 47) is evaluated then, so every name it
references must be bound at that point.  The module has no
`from __future__ import annotations`, and Python resolves annotation names
eagerly when the `def` statement runs. -/

/-- The names bound by the import statements of the module (lines 18-23):
`Int` from jaxtyping, `Tensor` and `nn` from torch, and the three
nerfstudio collaborator names. -/
def moduleImportedNames : List String :=
  ["Int", "Tensor", "nn", "CameraOptimizer", "Cameras", "RayBundle"]

/-- The non-builtin names referenced by the signature annotations of
`forward` (lines 45-47): `Int[Tensor, "num_rays 3"]` in the parameter
annotation and `Union[RayBundle, Tuple[RayBundle, Float[Tensor, "num_rays 2"]]]`
in the return annotation. -/
def forwardAnnotationNames : List String :=
  ["Int", "Tensor", "Union", "RayBundle", "Tuple", "Float"]

/-! ## Concrete instances used by the witnesses -/

/-- A concrete image-coordinate geometry for the witnesses: a 2×3 image
whose table entry at pixel `(r, c)` is `(r, c)`. -/
def exGeom (_off : ℚ) : CoordTable :=
  { rows := 2, cols := 3, entry := fun r c => ((r : ℚ), (c : ℚ)) }

/-- A concrete per-ray generation function for the witnesses. -/
def exRayFn (ci : ℤ) (cd : Coord) (p : Pose) : Ray :=
  { origin := ((ci : ℚ), p, p), direction := (cd.1, cd.2, 1) }

/-- A concrete per-ray resampling function for the witnesses. -/
def exPerturbFn (_ci : ℤ) (cd : Coord) (_p : Pose) : Coord :=
  (cd.2, cd.1)

/-- A concrete camera collection for the witnesses. -/
def exCameras : Cameras := specCameras exGeom exRayFn exPerturbFn

/-- A concrete pose optimizer for the witnesses: camera index `i` maps to
the transform stand-in `(i : ℚ)`. -/
def exOpt : PoseOptimizer := fun cs => some (cs.map (fun ci => (ci : ℚ)))

/-- A concrete adapter instance, built with the default offset `0.5`. -/
def exRG : RayGenerator := RayGenerator.initDefault exCameras exOpt

/-- The ray `exRayFn` produces for the triple `(0, 1, 2)` under `exRG`:
camera `0`, pose stand-in `0`, gathered cache entry `(1, 2)`. -/
def exRay : Ray := { origin := (0, 0, 0), direction := (1, 2, 1) }

/-- A small 2×2 table used by the negative-index counterexample. -/
def exTable : CoordTable :=
  { rows := 2, cols := 2, entry := fun r c => ((r : ℚ), (c : ℚ)) }

/-! ## Helper lemmas -/

lemma tensorIndex_of_nonneg (n : ℕ) (i : ℤ) (h0 : 0 ≤ i) (h1 : i < (n : ℤ)) :
    tensorIndex n i = some i.toNat := by
  unfold tensorIndex
  rw [if_pos ⟨h0, h1⟩]

lemma tensorIndex_of_neg (n : ℕ) (i : ℤ) (h0 : -(n : ℤ) ≤ i) (h1 : i < 0) :
    tensorIndex n i = some (i + (n : ℤ)).toNat := by
  unfold tensorIndex
  rw [if_neg, if_pos ⟨h0, h1⟩]
  rintro ⟨h0', _⟩
  exact absurd h1 (not_lt.mpr h0')

lemma tensorIndex_none (n : ℕ) (i : ℤ) (h : i < -(n : ℤ) ∨ (n : ℤ) ≤ i) :
    tensorIndex n i = none := by
  unfold tensorIndex
  rcases h with h | h
  · rw [if_neg, if_neg]
    · rintro ⟨h0, _⟩
      have : (0 : ℤ) ≤ (n : ℤ) := Int.ofNat_nonneg n
      omega
    · rintro ⟨h0, _⟩
      omega
  · rw [if_neg, if_neg]
    · rintro ⟨_, h1⟩
      have : (0 : ℤ) ≤ (n : ℤ) := Int.ofNat_nonneg n
      omega
    · rintro ⟨_, h1⟩
      omega

lemma gather1_valid (t : CoordTable) (tri : Tri) (h : validTri t tri) :
    t.gather1 tri.2.1 tri.2.2 = some (t.entry tri.2.1.toNat tri.2.2.toNat) := by
  obtain ⟨h1, h2, h3, h4⟩ := h
  unfold CoordTable.gather1
  rw [tensorIndex_of_nonneg _ _ h1 h2, tensorIndex_of_nonneg _ _ h3 h4]

lemma gatherCoords_valid (t : CoordTable) (ray_indices : List Tri)
    (h : ∀ tri ∈ ray_indices, validTri t tri) :
    gatherCoords t (rowsOf ray_indices) (colsOf ray_indices) =
      some (expectedCoords t ray_indices) := by
  induction ray_indices with
  | nil => rfl
  | cons tri rest ih =>
    have htri : validTri t tri := h tri (List.mem_cons_self tri rest)
    have hrest : ∀ tr ∈ rest, validTri t tr := fun tr htr => h tr (List.mem_cons_of_mem tri htr)
    show gatherCoords t (tri.2.1 :: rowsOf rest) (tri.2.2 :: colsOf rest) = _
    unfold gatherCoords
    rw [gather1_valid t tri htri, ih hrest]
    rfl

lemma zipWith3_length {α β γ δ : Type} (f : α → β → γ → δ) :
    ∀ (as : List α) (bs : List β) (cs : List γ),
      (zipWith3 f as bs cs).length = min (min as.length bs.length) cs.length
  | [], [], [] => by simp [zipWith3]
  | [], [], _ :: _ => by simp [zipWith3]
  | [], _ :: _, [] => by simp [zipWith3]
  | [], _ :: _, _ :: _ => by simp [zipWith3]
  | _ :: _, [], [] => by simp [zipWith3]
  | _ :: _, [], _ :: _ => by simp [zipWith3]
  | _ :: _, _ :: _, [] => by simp [zipWith3]
  | a :: as, b :: bs, c :: cs => by
    simp only [zipWith3, List.length_cons, zipWith3_length f as bs cs]
    omega

lemma zipWith3_getElem? {α β γ δ : Type} (f : α → β → γ → δ) :
    ∀ (as : List α) (bs : List β) (cs : List γ) (i : ℕ)
      (a : α) (b : β) (c : γ),
      as[i]? = some a → bs[i]? = some b → cs[i]? = some c →
      (zipWith3 f as bs cs)[i]? = some (f a b c)
  | a0 :: as, b0 :: bs, c0 :: cs, 0, a, b, c => by
    intro ha hb hc
    simp only [List.getElem?_cons_zero, Option.some.injEq] at ha hb hc
    subst ha; subst hb; subst hc
    simp [zipWith3]
  | a0 :: as, b0 :: bs, c0 :: cs, i + 1, a, b, c => by
    intro ha hb hc
    simp only [List.getElem?_cons_succ] at ha hb hc
    simp only [zipWith3, List.getElem?_cons_succ]
    exact zipWith3_getElem? f as bs cs i a b c ha hb hc
  | [], _, _, i, a, b, c => by
    intro ha _ _
    simp at ha
  | _ :: _, [], _, i, a, b, c => by
    intro _ hb _
    simp at hb
  | _ :: _, _ :: _, [], i, a, b, c => by
    intro _ _ hc
    simp at hc

lemma postprocess_some_iff (off : ℚ) (resample : Bool) (res : GenResult) :
    (∃ r, RayGenerator.postprocess off resample res = some r) ↔
      (resample = true → ∃ rb cs, res = Sum.inr (rb, cs)) := by
  rcases res with rb | ⟨rb, cs⟩ <;> cases resample <;>
    simp [RayGenerator.postprocess]

/-! ## Claim theorems -/

/-- C5: construction stores as the image-coordinate cache exactly
`cameras.get_image_coords(pixel_offset)`; the stored offset, camera
reference and pose-optimizer reference are the constructor arguments; the
cache does not depend on the pose optimizer (it is a pure function of the
offset and the camera geometry), it tracks whatever offset is configured,
and the default offset is `0.5`. -/
theorem init_cache_is_get_image_coords :
    ∀ (cams : Cameras) (opt opt' : PoseOptimizer) (off : ℚ),
      (RayGenerator.init cams opt off).image_coords = cams.get_image_coords off ∧
      (RayGenerator.init cams opt off).pixel_offset = off ∧
      (RayGenerator.init cams opt off).cameras = cams ∧
      (RayGenerator.init cams opt off).pose_optimizer = opt ∧
      (RayGenerator.init cams opt off).image_coords =
        (RayGenerator.init cams opt' off).image_coords ∧
      (RayGenerator.initDefault cams opt).pixel_offset = 1 / 2 ∧
      (RayGenerator.initDefault cams opt).image_coords = cams.get_image_coords (1 / 2) := by
  intro cams opt opt' off
  exact ⟨rfl, rfl, rfl, rfl, rfl, rfl, rfl⟩

/-- C2: on a batch of valid index triples, the coordinates `forward`
gathers and hands to the rest of the pipeline (pose optimizer query plus
`generate_rays` delegation) are exactly the cache entries at each
`(row, col)`. -/
theorem forward_gathers_cache_entries (rg : RayGenerator) (ray_indices : List Tri)
    (resample : Bool) (h : ∀ tri ∈ ray_indices, validTri rg.image_coords tri) :
    rg.forward ray_indices resample =
      rg.forwardWithCoords (camsOf ray_indices)
        (expectedCoords rg.image_coords ray_indices) resample := by
  unfold RayGenerator.forward
  rw [gatherCoords_valid _ _ h, Option.some_bind]

/-- C2 witness: a concrete valid triple, evaluated on `exRG`. -/
theorem forward_gathers_cache_entries_witness :
    exRG.forward [((0 : ℤ), (1 : ℤ), (2 : ℤ))] false =
      exRG.forwardWithCoords (camsOf [((0 : ℤ), (1 : ℤ), (2 : ℤ))])
        (expectedCoords exRG.image_coords [((0 : ℤ), (1 : ℤ), (2 : ℤ))]) false :=
  forward_gathers_cache_entries exRG [((0 : ℤ), (1 : ℤ), (2 : ℤ))] false (by decide)

/-- C10: the coordinate gather depends only on the row and col columns of
the input batch and on the single shared cache `rg.image_coords`: two
batches that agree on rows and cols — whatever their camera ids — gather
identical coordinate lists. -/
theorem gather_ignores_camera_ids (rg : RayGenerator) (idx idx' : List Tri)
    (hy : rowsOf idx = rowsOf idx') (hx : colsOf idx = colsOf idx') :
    gatherCoords rg.image_coords (rowsOf idx) (colsOf idx) =
      gatherCoords rg.image_coords (rowsOf idx') (colsOf idx') := by
  rw [hy, hx]

/-- C10 witness: two triples with equal `(row, col)` but camera ids `0`
and `5` gather the same coordinates under `exRG`. -/
theorem gather_ignores_camera_ids_witness :
    gatherCoords exRG.image_coords (rowsOf [((0 : ℤ), (1 : ℤ), (2 : ℤ))])
        (colsOf [((0 : ℤ), (1 : ℤ), (2 : ℤ))]) =
      gatherCoords exRG.image_coords (rowsOf [((5 : ℤ), (1 : ℤ), (2 : ℤ))])
        (colsOf [((5 : ℤ), (1 : ℤ), (2 : ℤ))]) :=
  gather_ignores_camera_ids exRG [((0 : ℤ), (1 : ℤ), (2 : ℤ))]
    [((5 : ℤ), (1 : ℤ), (2 : ℤ))] rfl rfl

/-- C9 counterexample: the claim quantifies over every triple whose row
index lies in `[-rows, -1]` — with no condition on the col index — and
asserts the gather cannot fail.  On the 2×2 table `exTable`, the triple
with row `-1 ∈ [-2, -1]` and col `5` fails the gather (col `5` is out of
range on either side), so the claim as stated is false. -/
theorem gather_negative_row_still_fails_cex :
    (-(2 : ℤ) ≤ -1 ∧ (-1 : ℤ) ≤ -1) ∧ exTable.rows = 2 ∧ exTable.cols = 2 ∧
      exTable.gather1 (-1) 5 = none := by
  decide

/-- C9 (amended): for a triple whose row index lies in `[-rows, rows)` and
whose col index lies in `[-cols, cols)`, the gather does not fail: a
negative index `i` is wrapped to `dim + i`, so the gather returns the cache
entry at the wrapped position. -/
theorem gather_wraps_negative_indices (t : CoordTable) (y x : ℤ)
    (hy : -(t.rows : ℤ) ≤ y) (hy' : y < (t.rows : ℤ))
    (hx : -(t.cols : ℤ) ≤ x) (hx' : x < (t.cols : ℤ)) :
    t.gather1 y x = some (t.entry
      (if y < 0 then (y + (t.rows : ℤ)).toNat else y.toNat)
      (if x < 0 then (x + (t.cols : ℤ)).toNat else x.toNat)) := by
  unfold CoordTable.gather1
  rcases lt_or_le y 0 with hyneg | hypos <;> rcases lt_or_le x 0 with hxneg | hxpos
  · rw [tensorIndex_of_neg _ _ hy hyneg, tensorIndex_of_neg _ _ hx hxneg,
      if_pos hyneg, if_pos hxneg]
  · rw [tensorIndex_of_neg _ _ hy hyneg, tensorIndex_of_nonneg _ _ hxpos hx',
      if_pos hyneg, if_neg (not_lt.mpr hxpos)]
  · rw [tensorIndex_of_nonneg _ _ hypos hy', tensorIndex_of_neg _ _ hx hxneg,
      if_neg (not_lt.mpr hypos), if_pos hxneg]
  · rw [tensorIndex_of_nonneg _ _ hypos hy', tensorIndex_of_nonneg _ _ hxpos hx',
      if_neg (not_lt.mpr hypos), if_neg (not_lt.mpr hxpos)]

/-- C9 witness: on `exTable` (2×2), the gather at `(-1, -2)` succeeds and
wraps to the entry at `(1, 0)`. -/
theorem gather_wraps_negative_indices_witness :
    exTable.gather1 (-1) (-2) = some (exTable.entry
      (if (-1 : ℤ) < 0 then ((-1 : ℤ) + (exTable.rows : ℤ)).toNat else (-1 : ℤ).toNat)
      (if (-2 : ℤ) < 0 then ((-2 : ℤ) + (exTable.cols : ℤ)).toNat else (-2 : ℤ).toNat)) :=
  gather_wraps_negative_indices exTable (-1) (-2) (by decide) (by decide)
    (by decide) (by decide)

/-- C7: `forward` leaves the adapter state untouched — the cache, the
offset and the two collaborator references are the same after the call as
before — does not mutate the input batch, and its value is that of the
pure `forward`. -/
theorem forward_preserves_state (rg : RayGenerator) (ray_indices : List Tri)
    (resample : Bool) :
    (rg.forwardMut ray_indices resample).2.1 = rg ∧
    (rg.forwardMut ray_indices resample).2.2 = ray_indices ∧
    (rg.forwardMut ray_indices resample).1 = rg.forward ray_indices resample :=
  ⟨rfl, rfl, rfl⟩

/-- C3: when `resample` is set and each pipeline step yields a value — the
gather some coordinates, the pose optimizer some transforms, and
`generate_rays` a (bundle, raw resampled coordinates) pair — `forward`
returns exactly the two-component pair of the bundle together with the raw
resampled coordinates shifted by `-pixel_offset` in both components, one
output coordinate per raw coordinate. -/
theorem forward_resample_subtracts_offset (rg : RayGenerator) (ray_indices : List Tri)
    (coords : List Coord) (poses : List Pose) (rb : RayBundle) (raw : List Coord)
    (hg : gatherCoords rg.image_coords (rowsOf ray_indices) (colsOf ray_indices) =
      some coords)
    (hp : rg.pose_optimizer (camsOf ray_indices) = some poses)
    (hr : rg.cameras.generate_rays (camsOf ray_indices) coords poses true =
      some (Sum.inr (rb, raw))) :
    rg.forward ray_indices true =
      some (Sum.inr (rb,
        raw.map (fun p => (p.1 - rg.pixel_offset, p.2 - rg.pixel_offset)))) ∧
    (raw.map (fun p => (p.1 - rg.pixel_offset, p.2 - rg.pixel_offset))).length =
      raw.length := by
  constructor
  · unfold RayGenerator.forward RayGenerator.forwardWithCoords
    rw [hg, Option.some_bind, hp, Option.some_bind, hr, Option.some_bind]
    rfl
  · exact List.length_map raw _

/-- C3 witness: on `exRG` with the triple `(0, 1, 2)`, the gathered entry
is `(1, 2)`, the raw resampled coordinate is the swap `(2, 1)`, and
`forward` returns it shifted by the offset. -/
theorem forward_resample_subtracts_offset_witness :
    exRG.forward [((0 : ℤ), (1 : ℤ), (2 : ℤ))] true =
      some (Sum.inr ([exRay],
        ([((2 : ℚ), (1 : ℚ))]).map
          (fun p => (p.1 - exRG.pixel_offset, p.2 - exRG.pixel_offset)))) ∧
    (([((2 : ℚ), (1 : ℚ))]).map
        (fun p => (p.1 - exRG.pixel_offset, p.2 - exRG.pixel_offset))).length = 1 :=
  forward_resample_subtracts_offset exRG [((0 : ℤ), (1 : ℤ), (2 : ℤ))]
    [((1 : ℚ), (2 : ℚ))] [(0 : ℚ)] [exRay] [((2 : ℚ), (1 : ℚ))]
    (by decide) (by decide) (by decide)

/-- C4: when `resample` is not set and each pipeline step yields a value,
`forward` returns the `generate_rays` result unchanged: per the
collaborator contract that result is the bare ray bundle, so the call
returns the bundle alone, with no adjusted-coordinate component. -/
theorem forward_no_resample_passthrough (rg : RayGenerator) (ray_indices : List Tri)
    (coords : List Coord) (poses : List Pose) (rb : RayBundle)
    (hg : gatherCoords rg.image_coords (rowsOf ray_indices) (colsOf ray_indices) =
      some coords)
    (hp : rg.pose_optimizer (camsOf ray_indices) = some poses)
    (hr : rg.cameras.generate_rays (camsOf ray_indices) coords poses false =
      some (Sum.inl rb)) :
    rg.forward ray_indices false = some (Sum.inl rb) := by
  unfold RayGenerator.forward RayGenerator.forwardWithCoords
  rw [hg, Option.some_bind, hp, Option.some_bind, hr, Option.some_bind]
  rfl

/-- C4 witness: on `exRG` with the triple `(0, 1, 2)` and `resample` off,
`forward` returns the bare bundle `[exRay]`. -/
theorem forward_no_resample_passthrough_witness :
    exRG.forward [((0 : ℤ), (1 : ℤ), (2 : ℤ))] false = some (Sum.inl [exRay]) :=
  forward_no_resample_passthrough exRG [((0 : ℤ), (1 : ℤ), (2 : ℤ))]
    [((1 : ℚ), (2 : ℚ))] [(0 : ℚ)] [exRay] (by decide) (by decide) (by decide)

/-- C6: the adapter raises nothing of its own and propagates collaborator
failures: `forward` yields a value exactly when the coordinate gather, the
pose-optimizer call and the `generate_rays` call all yield values (and,
when `resample` is set, `generate_rays` yields a pair, as its contract
requires); whenever any of those steps raises, `forward` raises. -/
theorem forward_raises_iff_collaborators (rg : RayGenerator) (ray_indices : List Tri)
    (resample : Bool) :
    (∃ r, rg.forward ray_indices resample = some r) ↔
      ∃ coords, gatherCoords rg.image_coords (rowsOf ray_indices) (colsOf ray_indices) =
          some coords ∧
        ∃ poses, rg.pose_optimizer (camsOf ray_indices) = some poses ∧
          ∃ res, rg.cameras.generate_rays (camsOf ray_indices) coords poses resample =
              some res ∧
            (resample = true → ∃ rb cs, res = Sum.inr (rb, cs)) := by
  unfold RayGenerator.forward RayGenerator.forwardWithCoords
  constructor
  · rintro ⟨r, hr⟩
    rw [Option.bind_eq_some] at hr
    obtain ⟨coords, hg, hr⟩ := hr
    rw [Option.bind_eq_some] at hr
    obtain ⟨poses, hp, hr⟩ := hr
    rw [Option.bind_eq_some] at hr
    obtain ⟨res, hgen, hr⟩ := hr
    exact ⟨coords, hg, poses, hp, res, hgen,
      (postprocess_some_iff rg.pixel_offset resample res).mp ⟨r, hr⟩⟩
  · rintro ⟨coords, hg, poses, hp, res, hgen, hshape⟩
    obtain ⟨r, hr⟩ := (postprocess_some_iff rg.pixel_offset resample res).mpr hshape
    refine ⟨r, ?_⟩
    rw [hg, Option.some_bind, hp, Option.some_bind, hgen, Option.some_bind, hr]

/-- C8: the return annotation of `forward` references the names `Union`,
`Tuple` and `Float`, none of which is bound by the import statements of
the module, so evaluating the class body at import time raises a
`NameError` instead of defining the class — the claim that every
referenced name is bound fails on the code. -/
theorem forward_annotation_names_unbound :
    ("Union" ∈ forwardAnnotationNames ∧ "Union" ∉ moduleImportedNames) ∧
    ("Tuple" ∈ forwardAnnotationNames ∧ "Tuple" ∉ moduleImportedNames) ∧
    ("Float" ∈ forwardAnnotationNames ∧ "Float" ∉ moduleImportedNames) := by
  decide

/-- C1: on a batch of N valid index triples, `forward` over a camera
collection meeting the `generate_rays` contract (`specCameras`, modelled
from the spec) returns a ray bundle with exactly N entries, entry i being
the ray generated from the camera id, cached coordinate and correction
transform of input triple i — one-to-one and order-preserving. -/
theorem forward_bundle_aligned
    (geom : ℚ → CoordTable) (rayFn : ℤ → Coord → Pose → Ray)
    (perturbFn : ℤ → Coord → Pose → Coord) (opt : PoseOptimizer) (off : ℚ)
    (ray_indices : List Tri) (poses : List Pose) (resample : Bool)
    (hv : ∀ tri ∈ ray_indices, validTri (geom off) tri)
    (hp : opt (camsOf ray_indices) = some poses)
    (hl : poses.length = ray_indices.length) :
    ∃ res, (RayGenerator.init (specCameras geom rayFn perturbFn) opt off).forward
        ray_indices resample = some res ∧
      (bundleOf res).length = ray_indices.length ∧
      ∀ (i : ℕ) (tri : Tri) (p : Pose),
        ray_indices[i]? = some tri → poses[i]? = some p →
        (bundleOf res)[i]? =
          some (rayFn tri.1 ((geom off).entry tri.2.1.toNat tri.2.2.toNat) p) := by
  have hgather := gatherCoords_valid (geom off) ray_indices hv
  have hbundle_len : (zipWith3 rayFn (camsOf ray_indices)
      (expectedCoords (geom off) ray_indices) poses).length = ray_indices.length := by
    rw [zipWith3_length]
    simp [camsOf, expectedCoords, hl]
  have hbundle_get : ∀ (i : ℕ) (tri : Tri) (p : Pose),
      ray_indices[i]? = some tri → poses[i]? = some p →
      (zipWith3 rayFn (camsOf ray_indices)
          (expectedCoords (geom off) ray_indices) poses)[i]? =
        some (rayFn tri.1 ((geom off).entry tri.2.1.toNat tri.2.2.toNat) p) := by
    intro i tri p hti hpi
    apply zipWith3_getElem?
    · rw [camsOf, List.getElem?_map, hti]
      rfl
    · rw [expectedCoords, List.getElem?_map, hti]
      rfl
    · exact hpi
  cases resample with
  | false =>
    refine ⟨Sum.inl (zipWith3 rayFn (camsOf ray_indices)
        (expectedCoords (geom off) ray_indices) poses), ?_, hbundle_len, hbundle_get⟩
    unfold RayGenerator.forward RayGenerator.forwardWithCoords
    show (gatherCoords (geom off) (rowsOf ray_indices) (colsOf ray_indices)).bind _ = _
    rw [hgather, Option.some_bind]
    show (opt (camsOf ray_indices)).bind _ = _
    rw [hp, Option.some_bind]
    rfl
  | true =>
    refine ⟨Sum.inr (zipWith3 rayFn (camsOf ray_indices)
        (expectedCoords (geom off) ray_indices) poses,
        (zipWith3 perturbFn (camsOf ray_indices)
            (expectedCoords (geom off) ray_indices) poses).map
          (fun p => (p.1 - off, p.2 - off))), ?_, hbundle_len, hbundle_get⟩
    unfold RayGenerator.forward RayGenerator.forwardWithCoords
    show (gatherCoords (geom off) (rowsOf ray_indices) (colsOf ray_indices)).bind _ = _
    rw [hgather, Option.some_bind]
    show (opt (camsOf ray_indices)).bind _ = _
    rw [hp, Option.some_bind]
    rfl

/-- C1 witness: one valid triple `(0, 1, 2)` on the concrete instances —
the bundle has one entry, generated from that triple. -/
theorem forward_bundle_aligned_witness :
    ∃ res, (RayGenerator.init (specCameras exGeom exRayFn exPerturbFn) exOpt (1 / 2)).forward
        [((0 : ℤ), (1 : ℤ), (2 : ℤ))] false = some res ∧
      (bundleOf res).length = ([((0 : ℤ), (1 : ℤ), (2 : ℤ))] : List Tri).length ∧
      ∀ (i : ℕ) (tri : Tri) (p : Pose),
        ([((0 : ℤ), (1 : ℤ), (2 : ℤ))] : List Tri)[i]? = some tri →
        ([(0 : ℚ)] : List Pose)[i]? = some p →
        (bundleOf res)[i]? =
          some (exRayFn tri.1 ((exGeom (1 / 2)).entry tri.2.1.toNat tri.2.2.toNat) p) :=
  forward_bundle_aligned exGeom exRayFn exPerturbFn exOpt (1 / 2)
    [((0 : ℤ), (1 : ℤ), (2 : ℤ))] [(0 : ℚ)] false (by decide) (by decide) rfl

end RayGenerators
